/-
Verification of the USB connection-establishment, endpoint-resolution and
transfer core of the escpos-rw crate (src/printer.rs, src/error.rs), as a
shallow embedding in Lean 4.

Modelling conventions:
- Machine integers (u8, u16) are modelled as `Nat`; no arithmetic is performed
  on them, they are only compared and copied, so no modular reduction arises.
- `std::time::Duration` is modelled as a `Nat` number of milliseconds; the
  source's `Duration::from_secs(2)` is `2000`, `Duration::from_millis(OP_DELAY)`
  is `OP_DELAY`.
- Fallible host-USB operations (`rusb`) are modelled by `Except RusbError`
  values carried by the device / handle records: the environment decides the
  outcome of each host call, and the embedded code inspects those outcomes
  exactly where the source performs the call.
- `thread::sleep` is modelled by recording the number of slept milliseconds in
  the returned `WriteOutcome`.
-/
import Mathlib

namespace Escpos

/-- The error enumeration of `rusb` (the `rusb::Error` type), opaque to this
crate except for being wrapped; its exact variants are listed as in `rusb`. -/
inductive RusbError where
  | Io
  | InvalidParam
  | Access
  | NoDevice
  | NotFound
  | Busy
  | Timeout
  | Overflow
  | Pipe
  | Interrupted
  | NoMem
  | NotSupported
  | BadDescriptor
  | Other
deriving DecidableEq, Repr

/-- The crate's error type, from src/error.rs. -/
inductive Error where
  | UsbError (e : RusbError)
  | NoBulkEndpoint
  | IoError
  | PrinterError (s : String)
deriving DecidableEq, Repr

/-- `rusb::TransferType`. -/
inductive TransferType where
  | Control
  | Isochronous
  | Bulk
  | Interrupt
deriving DecidableEq, Repr

/-- `rusb::Direction`. -/
inductive Direction where
  | In
  | Out
deriving DecidableEq, Repr

/-- One endpoint descriptor of a configuration descriptor, with the three
attributes `Printer::new` inspects: `transfer_type()`, `direction()`,
`address()`. -/
structure EndpointDescriptor where
  transfer_type : TransferType
  direction : Direction
  address : Nat
deriving DecidableEq, Repr

/-- One interface descriptor (alternate setting), exposing its
`endpoint_descriptors()`. -/
structure InterfaceDescriptor where
  endpoint_descriptors : List EndpointDescriptor
deriving DecidableEq, Repr

/-- One interface of a configuration descriptor, exposing its
`descriptors()`. -/
structure Interface where
  descriptors : List InterfaceDescriptor
deriving DecidableEq, Repr

/-- The active configuration descriptor of a device, exposing its
`interfaces()`. -/
structure ConfigDescriptor where
  interfaces : List Interface
deriving DecidableEq, Repr

/-- A device descriptor, with the two fields `Printer::new` reads. -/
structure DeviceDescriptor where
  vendor_id : Nat
  product_id : Nat
deriving DecidableEq, Repr

/-- An opened device handle (`rusb::DeviceHandle`).  The record carries the
environment-chosen outcome of every host call `Printer` performs on a handle:
`kernel_driver_active(0)`, `detach_kernel_driver(0)`, `claim_interface(0)`,
and the bulk transfers `write_bulk(endpoint, bytes, timeout)` (returning the
number of bytes written) and `read_bulk(endpoint_r, buffer, timeout)`
(modelled as returning the bytes the device wrote into the buffer). -/
structure DeviceHandle where
  kernel_driver_active : Except RusbError Bool
  detach_kernel_driver : Except RusbError Unit
  claim_interface : Except RusbError Unit
  write_bulk : Nat → List Nat → Nat → Except RusbError Nat
  read_bulk : Nat → Nat → Except RusbError (List Nat)

/-- An enumerated USB device, carrying the environment-chosen outcomes of
`device_descriptor()`, `active_config_descriptor()` and `open()` (the last
renamed `dev_open` because `open` is a Lean keyword). -/
structure Device where
  device_descriptor : Except RusbError DeviceDescriptor
  active_config_descriptor : Except RusbError ConfigDescriptor
  dev_open : Except RusbError DeviceHandle

/-- A `rusb::Context`, exposing the outcome of its `devices()` call. -/
structure Context where
  devices_result : Except RusbError (List Device)

/-- The host USB subsystem, exposing the outcome of `Context::new()`. -/
structure Host where
  context_new : Except RusbError Context

/-- `UsbConnectionData` from src/printer.rs. -/
structure UsbConnectionData where
  vendor_id : Nat
  product_id : Nat
  endpoint_w : Option Nat
  endpoint_r : Option Nat
  timeout : Nat
deriving DecidableEq, Repr

/-- `PrinterConnection` from src/printer.rs: write endpoint, read endpoint,
device handle, timeout. -/
structure PrinterConnection where
  endpoint : Nat
  endpoint_r : Nat
  dh : DeviceHandle
  timeout : Nat

/-- The `Printer` object from src/printer.rs. -/
structure Printer where
  printer_connection : PrinterConnection

/-- `const OP_DELAY: u64 = 10;` (milliseconds). -/
def OP_DELAY : Nat := 10

/-- The triple nested `for` scan of `Printer::new`: over every interface,
every interface descriptor, every endpoint descriptor, keep overwriting
`detected_endpoint` whenever the endpoint is Bulk with the given direction
(the source has this loop twice, once with `Direction::Out` for the write
endpoint and once with `Direction::In` for the read endpoint; the direction
is the only difference, so it is a parameter here). -/
def scanEndpoints (cfg : ConfigDescriptor) (dir : Direction) : Option Nat :=
  cfg.interfaces.foldl
    (fun acc intf =>
      intf.descriptors.foldl
        (fun acc descr =>
          descr.endpoint_descriptors.foldl
            (fun acc endpoint =>
              if endpoint.transfer_type = TransferType.Bulk ∧ endpoint.direction = dir then
                some endpoint.address
              else acc)
            acc)
        acc)
    none

/-- Endpoint resolution for one direction, as in `Printer::new`
(src/printer.rs lines 67-88 for write, 90-111 for read): if an override is
present use it verbatim; otherwise run the scan and fail with
`Error::NoBulkEndpoint` when nothing was detected. -/
def resolveEndpoint (override : Option Nat) (cfg : ConfigDescriptor) (dir : Direction) :
    Except Error Nat :=
  match override with
  | some ep => .ok ep
  | none =>
    match scanEndpoints cfg dir with
    | some detected => .ok detected
    | none => .error Error.NoBulkEndpoint

/-- The interface-claim tail of `Printer::new` (src/printer.rs lines 129-141):
claim interface 0, fatal on failure, then build the `Printer`. -/
def claimPhase (dh : DeviceHandle) (actual_endpoint actual_endpoint_r timeout : Nat) :
    Except Error (Option Printer) :=
  match dh.claim_interface with
  | .ok _ =>
    .ok (some { printer_connection :=
      { endpoint := actual_endpoint
        endpoint_r := actual_endpoint_r
        dh := dh
        timeout := timeout } })
  | .error e => .error (Error.UsbError e)

/-- The post-open block of `Printer::new` (src/printer.rs lines 117-141):
query `kernel_driver_active(0)`; on query failure only print a warning and
proceed; if a driver is active, detach it, fatally on failure; then claim. -/
def openPhase (dh : DeviceHandle) (actual_endpoint actual_endpoint_r timeout : Nat) :
    Except Error (Option Printer) :=
  match dh.kernel_driver_active with
  | .ok true =>
    match dh.detach_kernel_driver with
    | .ok _ => claimPhase dh actual_endpoint actual_endpoint_r timeout
    | .error e => .error (Error.UsbError e)
  | .ok false => claimPhase dh actual_endpoint actual_endpoint_r timeout
  | .error _ => claimPhase dh actual_endpoint actual_endpoint_r timeout

/-- The device loop of `Printer::new`: for each device fetch the device
descriptor (fatal on failure), compare the vendor and product ids, and on the
first match run the whole connection sequence (config descriptor, endpoint
resolution for write then read, open, kernel-driver handling, claim), never
returning to the loop; if the list is exhausted, `Ok(None)`. -/
def connectLoop (data : UsbConnectionData) : List Device → Except Error (Option Printer)
  | [] => .ok none
  | device :: rest =>
    match device.device_descriptor with
    | .error e => .error (Error.UsbError e)
    | .ok s =>
      if s.vendor_id = data.vendor_id ∧ s.product_id = data.product_id then
        match device.active_config_descriptor with
        | .error e => .error (Error.UsbError e)
        | .ok config_descriptor =>
          match resolveEndpoint data.endpoint_w config_descriptor Direction.Out with
          | .error err => .error err
          | .ok actual_endpoint =>
            match resolveEndpoint data.endpoint_r config_descriptor Direction.In with
            | .error err => .error err
            | .ok actual_endpoint_r =>
              match device.dev_open with
              | .ok dh => openPhase dh actual_endpoint actual_endpoint_r data.timeout
              | .error e => .error (Error.UsbError e)
      else connectLoop data rest

/-- The `UsbConnectionData` literal built at the top of `Printer::new`
(src/printer.rs lines 50-56): the given ids, no endpoint overrides, a
2-second timeout. -/
def Printer.connectionData (vendor_id product_id : Nat) : UsbConnectionData :=
  { vendor_id := vendor_id
    product_id := product_id
    endpoint_w := none
    endpoint_r := none
    timeout := 2000 }

/-- `Printer::new(vendor_id, product_id)` from src/printer.rs: build the
connection data, create the context, list the devices (each fatal on
failure), then run the device loop. -/
def Printer.new (host : Host) (vendor_id product_id : Nat) :
    Except Error (Option Printer) :=
  let printer_connection_data := Printer.connectionData vendor_id product_id
  match host.context_new with
  | .error e => .error (Error.UsbError e)
  | .ok context =>
    match context.devices_result with
    | .error e => .error (Error.UsbError e)
    | .ok devices => connectLoop printer_connection_data devices

/-- Result of a `write_raw` call: the returned value together with the number
of milliseconds the calling thread slept. -/
structure WriteOutcome where
  result : Except Error Unit
  slept_millis : Nat

/-- Tail of `write_raw`, after the bulk write was issued:
`.map_err(Error::UsbError)?`, then `thread::sleep(OP_DELAY)` (recorded as
slept milliseconds), then `Ok(())`; on failure the sleep is never reached. -/
def writeWith (transfer : Except RusbError Nat) : WriteOutcome :=
  match transfer with
  | .error e => { result := .error (Error.UsbError e), slept_millis := 0 }
  | .ok _ => { result := .ok (), slept_millis := OP_DELAY }

/-- `Printer::write_raw(bytes)` from src/printer.rs: a bulk write of the bytes
to the write endpoint under the connection's timeout, then the settle sleep
on success. -/
def Printer.write_raw (p : Printer) (bytes : List Nat) : WriteOutcome :=
  match p.printer_connection with
  | { endpoint := endpoint, endpoint_r := _, dh := dh, timeout := timeout } =>
    writeWith (dh.write_bulk endpoint bytes timeout)

/-- Overwriting of a prefix of `buffer` by the bytes the device returned:
models how `read_bulk` mutates the caller's buffer in place, never past its
end. -/
def overwritePrefix (buffer data : List Nat) : List Nat :=
  match buffer, data with
  | [], _ => []
  | b :: bs, [] => b :: bs
  | _ :: bs, d :: ds => d :: overwritePrefix bs ds

/-- Tail of `read_raw`, after the bulk read was issued into `buffer`:
`.map_err(Error::UsbError)?`, then `Ok(buffer)` with the device's bytes
written over the front of the buffer. -/
def readWith (buffer : List Nat) (transfer : Except RusbError (List Nat)) :
    Except Error (List Nat) :=
  match transfer with
  | .error e => .error (Error.UsbError e)
  | .ok data => .ok (overwritePrefix buffer data)

/-- `Printer::read_raw()` from src/printer.rs: zero a 20-byte buffer, issue a
bulk read from the read endpoint under the connection's timeout, and return
the buffer. -/
def Printer.read_raw (p : Printer) : Except Error (List Nat) :=
  match p.printer_connection with
  | { endpoint := _, endpoint_r := endpoint_r, dh := dh, timeout := timeout } =>
    let buffer : List Nat := List.replicate 20 0
    readWith buffer (dh.read_bulk endpoint_r timeout)

/-- All endpoint descriptors of a configuration, flattened in enumeration
order (interfaces, then interface descriptors, then endpoint descriptors). -/
def allEndpoints (cfg : ConfigDescriptor) : List EndpointDescriptor :=
  cfg.interfaces.flatMap fun intf =>
    intf.descriptors.flatMap fun descr => descr.endpoint_descriptors

/-- The bulk endpoints of a given direction, in enumeration order. -/
def bulkMatches (cfg : ConfigDescriptor) (dir : Direction) : List EndpointDescriptor :=
  (allEndpoints cfg).filter fun e =>
    decide (e.transfer_type = TransferType.Bulk ∧ e.direction = dir)

/-- The loop body of the endpoint scan, extracted for reasoning. -/
def endpointStep (dir : Direction) (acc : Option Nat) (endpoint : EndpointDescriptor) :
    Option Nat :=
  if endpoint.transfer_type = TransferType.Bulk ∧ endpoint.direction = dir then
    some endpoint.address
  else acc

/-! Concrete fixtures used to evaluate the definitions on closed inputs. -/

/-- A configuration with two bulk-OUT endpoints (addresses 1 then 3) and one
bulk-IN endpoint (address 130), all in one interface descriptor. -/
def cfgTwoOut : ConfigDescriptor :=
  { interfaces := [
      { descriptors := [
          { endpoint_descriptors := [
              { transfer_type := TransferType.Bulk, direction := Direction.Out, address := 1 },
              { transfer_type := TransferType.Bulk, direction := Direction.In, address := 130 },
              { transfer_type := TransferType.Bulk, direction := Direction.Out, address := 3 } ] } ] } ] }

/-- A configuration with a single bulk-IN endpoint and no bulk-OUT endpoint. -/
def cfgNoOut : ConfigDescriptor :=
  { interfaces := [
      { descriptors := [
          { endpoint_descriptors := [
              { transfer_type := TransferType.Bulk, direction := Direction.In, address := 130 },
              { transfer_type := TransferType.Interrupt, direction := Direction.Out, address := 2 } ] } ] } ] }

/-- A configuration with one bulk-OUT endpoint (1) and one bulk-IN (130). -/
def cfgBoth : ConfigDescriptor :=
  { interfaces := [
      { descriptors := [
          { endpoint_descriptors := [
              { transfer_type := TransferType.Bulk, direction := Direction.Out, address := 1 },
              { transfer_type := TransferType.Bulk, direction := Direction.In, address := 130 } ] } ] } ] }

/-- A handle on which every host call succeeds (no kernel driver attached). -/
def goodHandle : DeviceHandle :=
  { kernel_driver_active := .ok false
    detach_kernel_driver := .ok ()
    claim_interface := .ok ()
    write_bulk := fun _ bytes _ => .ok bytes.length
    read_bulk := fun _ _ => .ok [7, 8, 9] }

/-- A handle whose kernel-driver-active query fails. -/
def handleQueryFail : DeviceHandle :=
  { goodHandle with kernel_driver_active := .error RusbError.Other }

/-- A handle with an attached kernel driver whose detach fails. -/
def handleDetachFail : DeviceHandle :=
  { goodHandle with
      kernel_driver_active := .ok true
      detach_kernel_driver := .error RusbError.Busy }

/-- A handle with an attached kernel driver whose detach succeeds. -/
def handleDetachOk : DeviceHandle :=
  { goodHandle with kernel_driver_active := .ok true }

/-- A handle whose bulk write fails with a timeout. -/
def handleWriteFail : DeviceHandle :=
  { goodHandle with write_bulk := fun _ _ _ => .error RusbError.Timeout }

/-- A fully working device with vendor id 10, product id 20. -/
def deviceGood : Device :=
  { device_descriptor := .ok { vendor_id := 10, product_id := 20 }
    active_config_descriptor := .ok cfgBoth
    dev_open := .ok goodHandle }

/-- A device with vendor id 10, product id 20 whose configuration has no
bulk-OUT endpoint. -/
def deviceNoOut : Device :=
  { device_descriptor := .ok { vendor_id := 10, product_id := 20 }
    active_config_descriptor := .ok cfgNoOut
    dev_open := .ok goodHandle }

/-- A device with non-matching ids (vendor 1, product 2). -/
def deviceOther : Device :=
  { device_descriptor := .ok { vendor_id := 1, product_id := 2 }
    active_config_descriptor := .ok cfgBoth
    dev_open := .ok goodHandle }

/-- A device whose device-descriptor fetch fails. -/
def deviceDescrFail : Device :=
  { device_descriptor := .error RusbError.Access
    active_config_descriptor := .ok cfgBoth
    dev_open := .ok goodHandle }

/-- A host enumerating exactly the given devices. -/
def hostOf (devices : List Device) : Host :=
  { context_new := .ok { devices_result := .ok devices } }

/-- The printer that `Printer::new` builds from `deviceGood` for ids 10/20. -/
def printerGood : Printer :=
  { printer_connection :=
      { endpoint := 1, endpoint_r := 130, dh := goodHandle, timeout := 2000 } }

/-- A printer over a handle whose bulk write fails. -/
def printerWriteFail : Printer :=
  { printer_connection :=
      { endpoint := 1, endpoint_r := 130, dh := handleWriteFail, timeout := 2000 } }

theorem foldl_over_flatMap {α β γ : Type} (f : β → α → β) (g : γ → List α) :
    ∀ (l : List γ) (acc : β),
    List.foldl f acc (l.flatMap g) = List.foldl (fun a x => List.foldl f a (g x)) acc l := by
  intro l
  induction l with
  | nil => intro acc; rfl
  | cons x xs ih => intro acc; simp [List.flatMap_cons, List.foldl_append, ih]

theorem scanEndpoints_eq_foldl (cfg : ConfigDescriptor) (dir : Direction) :
    scanEndpoints cfg dir = List.foldl (endpointStep dir) none (allEndpoints cfg) := by
  simp only [scanEndpoints, allEndpoints, foldl_over_flatMap]
  rfl

theorem getLast?_cons_getD {α : Type} (x : α) (l : List α) :
    (x :: l).getLast? = some (l.getLast?.getD x) := by
  cases l <;> simp [List.getLast?_cons]

theorem foldl_endpointStep_last (dir : Direction) :
    ∀ (l : List EndpointDescriptor) (acc : Option Nat),
    List.foldl (endpointStep dir) acc l =
      Option.or
        (((l.filter fun e =>
            decide (e.transfer_type = TransferType.Bulk ∧ e.direction = dir)).getLast?).map
          (fun e => e.address))
        acc := by
  intro l
  induction l with
  | nil => intro acc; rfl
  | cons x xs ih =>
    intro acc
    rw [List.foldl_cons, ih]
    by_cases hx : x.transfer_type = TransferType.Bulk ∧ x.direction = dir
    · have hfx : ((x :: xs).filter fun e =>
          decide (e.transfer_type = TransferType.Bulk ∧ e.direction = dir)) =
          x :: (xs.filter fun e =>
            decide (e.transfer_type = TransferType.Bulk ∧ e.direction = dir)) := by
        simp [List.filter_cons, hx]
      rw [hfx, getLast?_cons_getD]
      cases hlast : (xs.filter fun e =>
          decide (e.transfer_type = TransferType.Bulk ∧ e.direction = dir)).getLast? with
      | none => simp [endpointStep, hx]
      | some e => simp
    · have hfx : ((x :: xs).filter fun e =>
          decide (e.transfer_type = TransferType.Bulk ∧ e.direction = dir)) =
          (xs.filter fun e =>
            decide (e.transfer_type = TransferType.Bulk ∧ e.direction = dir)) := by
        simp [List.filter_cons, hx]
      rw [hfx]
      have hstep : endpointStep dir acc x = acc := by simp [endpointStep, hx]
      rw [hstep]

theorem scanEndpoints_eq_lastMatch (cfg : ConfigDescriptor) (dir : Direction) :
    scanEndpoints cfg dir =
      ((bulkMatches cfg dir).getLast?).map (fun e => e.address) := by
  rw [scanEndpoints_eq_foldl, foldl_endpointStep_last]
  simp [bulkMatches]

theorem resolveEndpoint_none_fails (cfg : ConfigDescriptor) (dir : Direction)
    (h : bulkMatches cfg dir = []) :
    resolveEndpoint none cfg dir = .error Error.NoBulkEndpoint := by
  simp [resolveEndpoint, scanEndpoints_eq_lastMatch, h]

theorem resolveEndpoint_none_error_eq (cfg : ConfigDescriptor) (dir : Direction)
    (err : Error) (h : resolveEndpoint none cfg dir = .error err) :
    err = Error.NoBulkEndpoint := by
  unfold resolveEndpoint at h
  cases hscan : scanEndpoints cfg dir with
  | none => rw [hscan] at h; simpa using h.symm
  | some detected => rw [hscan] at h; simp at h

/-- C1: resolution without an override for a direction succeeds on any
configuration holding at least one bulk endpoint of that direction, and
returns the address of the LAST bulk endpoint of that direction in
enumeration order (interfaces, then interface descriptors, then endpoint
descriptors; later matches overwrite earlier ones). -/
theorem resolution_selects_last_bulk (cfg : ConfigDescriptor) (dir : Direction)
    (e : EndpointDescriptor) (h : (bulkMatches cfg dir).getLast? = some e) :
    resolveEndpoint none cfg dir = .ok e.address := by
  simp [resolveEndpoint, scanEndpoints_eq_lastMatch, h]

theorem resolution_selects_last_bulk_witness :
    (bulkMatches cfgTwoOut Direction.Out).getLast? =
      some { transfer_type := TransferType.Bulk, direction := Direction.Out, address := 3 } ∧
    resolveEndpoint none cfgTwoOut Direction.Out = .ok 3 :=
  ⟨by decide,
    resolution_selects_last_bulk cfgTwoOut Direction.Out
      { transfer_type := TransferType.Bulk, direction := Direction.Out, address := 3 }
      (by decide)⟩

/-- C8: with an override supplied for a direction, resolution returns the
override verbatim for every configuration descriptor whatsoever — in
particular also when the configuration holds no bulk endpoint of that
direction — so the descriptor is never consulted. -/
theorem resolution_override_verbatim (ep : Nat) (cfg : ConfigDescriptor) (dir : Direction) :
    resolveEndpoint (some ep) cfg dir = .ok ep := rfl

theorem connectLoop_skip_nonmatching (data : UsbConnectionData) :
    ∀ (pre rest : List Device),
    (∀ d ∈ pre, ∃ s, d.device_descriptor = .ok s ∧
      ¬(s.vendor_id = data.vendor_id ∧ s.product_id = data.product_id)) →
    connectLoop data (pre ++ rest) = connectLoop data rest := by
  intro pre
  induction pre with
  | nil => intro rest _; rfl
  | cons d ds ih =>
    intro rest hall
    obtain ⟨s, hs, hnm⟩ := hall d (by simp)
    have hrec := ih rest (fun d' hd' => hall d' (by simp [hd']))
    simp only [List.cons_append, connectLoop, hs]
    rw [if_neg hnm]
    exact hrec

theorem connectLoop_cons_matched_noBulk (data : UsbConnectionData) (d : Device)
    (rest : List Device) (s : DeviceDescriptor) (cfg : ConfigDescriptor)
    (hw : data.endpoint_w = none) (hr : data.endpoint_r = none)
    (hs : d.device_descriptor = .ok s)
    (hv : s.vendor_id = data.vendor_id) (hp : s.product_id = data.product_id)
    (hcfg : d.active_config_descriptor = .ok cfg)
    (hmiss : bulkMatches cfg Direction.Out = [] ∨ bulkMatches cfg Direction.In = []) :
    connectLoop data (d :: rest) = .error Error.NoBulkEndpoint := by
  simp only [connectLoop, hs]
  rw [if_pos ⟨hv, hp⟩]
  simp only [hcfg, hw, hr]
  rcases hmiss with hOut | hIn
  · rw [resolveEndpoint_none_fails cfg Direction.Out hOut]
  · cases hOutRes : resolveEndpoint none cfg Direction.Out with
    | error err =>
      simp [resolveEndpoint_none_error_eq cfg Direction.Out err hOutRes]
    | ok w =>
      rw [resolveEndpoint_none_fails cfg Direction.In hIn]

/-- C2: when every enumerated device has a readable device descriptor whose
vendor id and product id are not both equal to the requested ones,
`Printer::new` scans the whole list and returns `Ok(None)`, never an
error. -/
theorem new_none_when_no_match (host : Host) (ctx : Context) (devices : List Device)
    (vendor_id product_id : Nat)
    (hh : host.context_new = .ok ctx)
    (hd : ctx.devices_result = .ok devices)
    (hall : ∀ d ∈ devices, ∃ s, d.device_descriptor = .ok s ∧
      ¬(s.vendor_id = vendor_id ∧ s.product_id = product_id)) :
    Printer.new host vendor_id product_id = .ok none := by
  have hall' : ∀ d ∈ devices, ∃ s, d.device_descriptor = .ok s ∧
      ¬(s.vendor_id = (Printer.connectionData vendor_id product_id).vendor_id ∧
        s.product_id = (Printer.connectionData vendor_id product_id).product_id) := by
    simpa [Printer.connectionData] using hall
  have h := connectLoop_skip_nonmatching (Printer.connectionData vendor_id product_id)
    devices [] hall'
  rw [List.append_nil] at h
  simp only [Printer.new, hh, hd]
  exact h

theorem new_none_when_no_match_witness :
    Printer.new (hostOf [deviceOther]) 10 20 = .ok none :=
  new_none_when_no_match (hostOf [deviceOther]) { devices_result := .ok [deviceOther] }
    [deviceOther] 10 20 rfl rfl
    (by
      intro d hd
      rw [List.mem_singleton] at hd
      subst hd
      exact ⟨{ vendor_id := 1, product_id := 2 }, rfl, by decide⟩)

/-- C3: a configuration with zero bulk endpoints of a required direction and
no override makes resolution fail with `NoBulkEndpoint`, and `Printer::new`
on a matched device with that configuration fails with the same error. -/
theorem new_noBulkEndpoint_on_missing (host : Host) (ctx : Context) (d : Device)
    (s : DeviceDescriptor) (cfg : ConfigDescriptor) (dir : Direction)
    (vendor_id product_id : Nat)
    (hmiss : bulkMatches cfg dir = [])
    (hh : host.context_new = .ok ctx)
    (hd : ctx.devices_result = .ok [d])
    (hs : d.device_descriptor = .ok s)
    (hv : s.vendor_id = vendor_id) (hp : s.product_id = product_id)
    (hcfg : d.active_config_descriptor = .ok cfg) :
    resolveEndpoint none cfg dir = .error Error.NoBulkEndpoint ∧
    Printer.new host vendor_id product_id = .error Error.NoBulkEndpoint := by
  refine ⟨resolveEndpoint_none_fails cfg dir hmiss, ?_⟩
  simp only [Printer.new, hh, hd]
  refine connectLoop_cons_matched_noBulk _ d [] s cfg rfl rfl hs
    (by simpa [Printer.connectionData] using hv)
    (by simpa [Printer.connectionData] using hp) hcfg ?_
  cases dir with
  | Out => exact Or.inl hmiss
  | In => exact Or.inr hmiss

theorem new_noBulkEndpoint_on_missing_witness :
    resolveEndpoint none cfgNoOut Direction.Out = .error Error.NoBulkEndpoint ∧
    Printer.new (hostOf [deviceNoOut]) 10 20 = .error Error.NoBulkEndpoint :=
  new_noBulkEndpoint_on_missing (hostOf [deviceNoOut])
    { devices_result := .ok [deviceNoOut] } deviceNoOut
    { vendor_id := 10, product_id := 20 } cfgNoOut Direction.Out 10 20
    (by decide) rfl rfl rfl rfl rfl rfl

/-- C4: when the first device matching the requested ids has a configuration
missing a required bulk endpoint (and no override exists), `Printer::new`
returns `NoBulkEndpoint` and never looks at the remaining devices — the
result is the same error for every possible tail of the enumeration. -/
theorem new_aborts_on_first_match_failure (host : Host) (ctx : Context)
    (pre post : List Device) (d : Device) (s : DeviceDescriptor)
    (cfg : ConfigDescriptor) (vendor_id product_id : Nat)
    (hpre : ∀ d' ∈ pre, ∃ s', d'.device_descriptor = .ok s' ∧
      ¬(s'.vendor_id = vendor_id ∧ s'.product_id = product_id))
    (hs : d.device_descriptor = .ok s)
    (hv : s.vendor_id = vendor_id) (hp : s.product_id = product_id)
    (hcfg : d.active_config_descriptor = .ok cfg)
    (hmiss : bulkMatches cfg Direction.Out = [] ∨ bulkMatches cfg Direction.In = [])
    (hh : host.context_new = .ok ctx)
    (hd : ctx.devices_result = .ok (pre ++ d :: post)) :
    Printer.new host vendor_id product_id = .error Error.NoBulkEndpoint := by
  simp only [Printer.new, hh, hd]
  rw [connectLoop_skip_nonmatching (Printer.connectionData vendor_id product_id) pre
    (d :: post) (by simpa [Printer.connectionData] using hpre)]
  exact connectLoop_cons_matched_noBulk _ d post s cfg rfl rfl hs
    (by simpa [Printer.connectionData] using hv)
    (by simpa [Printer.connectionData] using hp) hcfg hmiss

theorem new_aborts_on_first_match_failure_witness :
    Printer.new (hostOf [deviceOther, deviceNoOut, deviceGood]) 10 20 =
      .error Error.NoBulkEndpoint :=
  new_aborts_on_first_match_failure (hostOf [deviceOther, deviceNoOut, deviceGood])
    { devices_result := .ok [deviceOther, deviceNoOut, deviceGood] }
    [deviceOther] [deviceGood] deviceNoOut { vendor_id := 10, product_id := 20 }
    cfgNoOut 10 20
    (by
      intro d' hd'
      rw [List.mem_singleton] at hd'
      subst hd'
      exact ⟨{ vendor_id := 1, product_id := 2 }, rfl, by decide⟩)
    rfl rfl rfl rfl (Or.inl (by decide)) rfl rfl

/-- C10: a failing device-descriptor fetch on any enumerated device — matched
or not — makes `Printer::new` return `Err(UsbError(...))` at once, for every
possible tail of the enumeration. -/
theorem new_error_on_descriptor_failure (host : Host) (ctx : Context)
    (pre post : List Device) (d : Device) (e : RusbError) (vendor_id product_id : Nat)
    (hpre : ∀ d' ∈ pre, ∃ s', d'.device_descriptor = .ok s' ∧
      ¬(s'.vendor_id = vendor_id ∧ s'.product_id = product_id))
    (hfail : d.device_descriptor = .error e)
    (hh : host.context_new = .ok ctx)
    (hd : ctx.devices_result = .ok (pre ++ d :: post)) :
    Printer.new host vendor_id product_id = .error (Error.UsbError e) := by
  simp only [Printer.new, hh, hd]
  rw [connectLoop_skip_nonmatching (Printer.connectionData vendor_id product_id) pre
    (d :: post) (by simpa [Printer.connectionData] using hpre)]
  simp [connectLoop, hfail]

theorem new_error_on_descriptor_failure_witness :
    Printer.new (hostOf [deviceOther, deviceDescrFail, deviceGood]) 10 20 =
      .error (Error.UsbError RusbError.Access) :=
  new_error_on_descriptor_failure (hostOf [deviceOther, deviceDescrFail, deviceGood])
    { devices_result := .ok [deviceOther, deviceDescrFail, deviceGood] }
    [deviceOther] [deviceGood] deviceDescrFail RusbError.Access 10 20
    (by
      intro d' hd'
      rw [List.mem_singleton] at hd'
      subst hd'
      exact ⟨{ vendor_id := 1, product_id := 2 }, rfl, by decide⟩)
    rfl rfl rfl

/-- C5: after the device is opened, a failing kernel-driver-active query is
non-fatal and establishment proceeds straight to the interface claim; a
successful query reporting an attached driver leads to a detach, after which
establishment proceeds, and a failing detach is fatal with
`Error::UsbError` wrapping the cause. -/
theorem kernel_driver_handling (dh_q dh_t dh_d : DeviceHandle)
    (w r t : Nat) (e f : RusbError)
    (hq : dh_q.kernel_driver_active = .error e)
    (ht1 : dh_t.kernel_driver_active = .ok true)
    (ht2 : dh_t.detach_kernel_driver = .ok ())
    (hd1 : dh_d.kernel_driver_active = .ok true)
    (hd2 : dh_d.detach_kernel_driver = .error f) :
    openPhase dh_q w r t = claimPhase dh_q w r t ∧
    openPhase dh_t w r t = claimPhase dh_t w r t ∧
    openPhase dh_d w r t = .error (Error.UsbError f) := by
  refine ⟨?_, ?_, ?_⟩ <;> simp [openPhase, hq, ht1, ht2, hd1, hd2]

theorem kernel_driver_handling_witness :
    openPhase handleQueryFail 1 130 2000 = claimPhase handleQueryFail 1 130 2000 ∧
    openPhase handleDetachOk 1 130 2000 = claimPhase handleDetachOk 1 130 2000 ∧
    openPhase handleDetachFail 1 130 2000 = .error (Error.UsbError RusbError.Busy) :=
  kernel_driver_handling handleQueryFail handleDetachOk handleDetachFail
    1 130 2000 RusbError.Other RusbError.Busy rfl rfl rfl rfl rfl

/-- C6: a successful bulk write makes `write_raw` return `Ok(())` after the
thread slept exactly `OP_DELAY` milliseconds (a constant, equal to 10); a
failing bulk write makes it return the wrapped error with no sleep at all. -/
theorem write_raw_settle_delay (p1 p2 : Printer) (bytes1 bytes2 : List Nat)
    (n : Nat) (e : RusbError)
    (h1 : p1.printer_connection.dh.write_bulk p1.printer_connection.endpoint bytes1
        p1.printer_connection.timeout = .ok n)
    (h2 : p2.printer_connection.dh.write_bulk p2.printer_connection.endpoint bytes2
        p2.printer_connection.timeout = .error e) :
    Printer.write_raw p1 bytes1 = { result := .ok (), slept_millis := OP_DELAY } ∧
    OP_DELAY = 10 ∧
    Printer.write_raw p2 bytes2 =
      { result := .error (Error.UsbError e), slept_millis := 0 } := by
  obtain ⟨⟨ep1, er1, dh1, t1⟩⟩ := p1
  obtain ⟨⟨ep2, er2, dh2, t2⟩⟩ := p2
  dsimp only at h1 h2
  exact ⟨by simp [Printer.write_raw, writeWith, h1], rfl,
    by simp [Printer.write_raw, writeWith, h2]⟩

theorem write_raw_settle_delay_witness :
    Printer.write_raw printerGood [27, 112] = { result := .ok (), slept_millis := OP_DELAY } ∧
    OP_DELAY = 10 ∧
    Printer.write_raw printerWriteFail [27, 112] =
      { result := .error (Error.UsbError RusbError.Timeout), slept_millis := 0 } :=
  write_raw_settle_delay printerGood printerWriteFail [27, 112] [27, 112] 2
    RusbError.Timeout rfl rfl

theorem overwritePrefix_length :
    ∀ (buffer data : List Nat), (overwritePrefix buffer data).length = buffer.length := by
  intro buffer
  induction buffer with
  | nil => intro data; cases data <;> rfl
  | cons b bs ih =>
    intro data
    cases data with
    | nil => rfl
    | cons x xs => simp [overwritePrefix, ih]

theorem overwritePrefix_getD_of_ge :
    ∀ (buffer data : List Nat) (i fallback : Nat), data.length ≤ i →
    (overwritePrefix buffer data).getD i fallback = buffer.getD i fallback := by
  intro buffer
  induction buffer with
  | nil => intro data i fallback _; cases data <;> rfl
  | cons b bs ih =>
    intro data i fallback hi
    cases data with
    | nil => rfl
    | cons x xs =>
      cases i with
      | zero => simp at hi
      | succ j =>
        simp only [overwritePrefix, List.getD_cons_succ]
        exact ih xs j fallback (by simpa using hi)

/-- C7: a successful `read_raw` returns a buffer of exactly 20 bytes; the
buffer starts zeroed and only a prefix is overwritten by the device's bytes,
so every position the device did not write remains zero. -/
theorem read_raw_twenty_zero_padded (p : Printer) (data : List Nat) (i : Nat)
    (h : p.printer_connection.dh.read_bulk p.printer_connection.endpoint_r
        p.printer_connection.timeout = .ok data)
    (hi : data.length ≤ i) :
    ∃ buf, Printer.read_raw p = .ok buf ∧ buf.length = 20 ∧
      (i < 20 → buf.getD i 1 = 0) := by
  obtain ⟨⟨ep, er, dh, t⟩⟩ := p
  dsimp only at h
  refine ⟨overwritePrefix (List.replicate 20 0) data, ?_, ?_, ?_⟩
  · simp [Printer.read_raw, readWith, h]
  · simp [overwritePrefix_length]
  · intro hlt
    rw [overwritePrefix_getD_of_ge (List.replicate 20 0) data i 1 hi,
      List.getD_eq_getElem?_getD, List.getElem?_replicate]
    simp [hlt]

theorem read_raw_twenty_zero_padded_witness :
    ∃ buf, Printer.read_raw printerGood = .ok buf ∧ buf.length = 20 ∧
      (5 < 20 → buf.getD 5 1 = 0) :=
  read_raw_twenty_zero_padded printerGood [7, 8, 9] 5 rfl (by decide)

theorem claimPhase_timeout (dh : DeviceHandle) (w r t : Nat) (pr : Printer)
    (h : claimPhase dh w r t = .ok (some pr)) :
    pr.printer_connection.timeout = t ∧
    pr.printer_connection.endpoint = w ∧
    pr.printer_connection.endpoint_r = r := by
  unfold claimPhase at h
  cases hc : dh.claim_interface with
  | ok u => rw [hc] at h; simp at h; simp [← h]
  | error e => rw [hc] at h; simp at h

theorem openPhase_timeout (dh : DeviceHandle) (w r t : Nat) (pr : Printer)
    (h : openPhase dh w r t = .ok (some pr)) :
    pr.printer_connection.timeout = t ∧
    pr.printer_connection.endpoint = w ∧
    pr.printer_connection.endpoint_r = r := by
  unfold openPhase at h
  cases hk : dh.kernel_driver_active with
  | error e => rw [hk] at h; exact claimPhase_timeout dh w r t pr h
  | ok active =>
    rw [hk] at h
    cases active with
    | false => exact claimPhase_timeout dh w r t pr h
    | true =>
      cases hdt : dh.detach_kernel_driver with
      | ok u => rw [hdt] at h; exact claimPhase_timeout dh w r t pr h
      | error e => rw [hdt] at h; simp at h

theorem connectLoop_ok_some_timeout (data : UsbConnectionData) :
    ∀ (devices : List Device) (pr : Printer),
    connectLoop data devices = .ok (some pr) →
    pr.printer_connection.timeout = data.timeout := by
  intro devices
  induction devices with
  | nil => intro pr h; simp [connectLoop] at h
  | cons d ds ih =>
    intro pr h
    simp only [connectLoop] at h
    cases hs : d.device_descriptor with
    | error e => rw [hs] at h; simp at h
    | ok s =>
      rw [hs] at h
      dsimp only at h
      by_cases hm : s.vendor_id = data.vendor_id ∧ s.product_id = data.product_id
      · rw [if_pos hm] at h
        cases hc : d.active_config_descriptor with
        | error e => rw [hc] at h; simp at h
        | ok cfg =>
          rw [hc] at h
          dsimp only at h
          cases hwr : resolveEndpoint data.endpoint_w cfg Direction.Out with
          | error err => rw [hwr] at h; simp at h
          | ok w =>
            rw [hwr] at h
            dsimp only at h
            cases hrr : resolveEndpoint data.endpoint_r cfg Direction.In with
            | error err => rw [hrr] at h; simp at h
            | ok r =>
              rw [hrr] at h
              dsimp only at h
              cases ho : d.dev_open with
              | error e => rw [ho] at h; simp at h
              | ok dh =>
                rw [ho] at h
                dsimp only at h
                exact (openPhase_timeout dh w r data.timeout pr h).1
      · rw [if_neg hm] at h
        exact ih pr h

/-- C9: `Printer::new(vendor_id, product_id)` builds connection data with no
write override, no read override, and a 2000 ms (2-second) timeout; any
printer it returns carries that 2000 ms timeout, and both `write_raw` and
`read_raw` hand exactly that timeout to the bulk-transfer primitives. -/
theorem new_default_connection_data (host : Host) (vendor_id product_id : Nat)
    (pr : Printer) (bytes : List Nat)
    (h : Printer.new host vendor_id product_id = .ok (some pr)) :
    (Printer.connectionData vendor_id product_id).endpoint_w = none ∧
    (Printer.connectionData vendor_id product_id).endpoint_r = none ∧
    (Printer.connectionData vendor_id product_id).timeout = 2000 ∧
    pr.printer_connection.timeout = 2000 ∧
    Printer.write_raw pr bytes =
      writeWith (pr.printer_connection.dh.write_bulk pr.printer_connection.endpoint
        bytes 2000) ∧
    Printer.read_raw pr =
      readWith (List.replicate 20 0)
        (pr.printer_connection.dh.read_bulk pr.printer_connection.endpoint_r 2000) := by
  have ht : pr.printer_connection.timeout = 2000 := by
    unfold Printer.new at h
    cases hh : host.context_new with
    | error e => rw [hh] at h; simp at h
    | ok ctx =>
      rw [hh] at h
      dsimp only at h
      cases hd : ctx.devices_result with
      | error e => rw [hd] at h; simp at h
      | ok devices =>
        rw [hd] at h
        dsimp only at h
        exact connectLoop_ok_some_timeout (Printer.connectionData vendor_id product_id)
          devices pr h
  obtain ⟨⟨ep, er, dh, t⟩⟩ := pr
  simp only [PrinterConnection.timeout] at ht
  subst ht
  exact ⟨rfl, rfl, rfl, rfl, rfl, rfl⟩

theorem new_default_connection_data_witness :
    (Printer.connectionData 10 20).endpoint_w = none ∧
    (Printer.connectionData 10 20).endpoint_r = none ∧
    (Printer.connectionData 10 20).timeout = 2000 ∧
    printerGood.printer_connection.timeout = 2000 ∧
    Printer.write_raw printerGood [27] =
      writeWith (printerGood.printer_connection.dh.write_bulk
        printerGood.printer_connection.endpoint [27] 2000) ∧
    Printer.read_raw printerGood =
      readWith (List.replicate 20 0)
        (printerGood.printer_connection.dh.read_bulk
          printerGood.printer_connection.endpoint_r 2000) :=
  new_default_connection_data (hostOf [deviceGood]) 10 20 printerGood [27] rfl

end Escpos
